import Mathlib

/-
Verification of the RAG backend (configuration layer, chat API, knowledge-base
subsystem, RAG workflow, reranking client, web-search subsystem) against its
natural-language specification.  Python sources are shallowly embedded: pure
functions become Lean functions, vendor/network calls and filesystem state
become explicit oracle parameters, Python exceptions become an explicit
`PyExc` error type threaded through `Except`.
-/

/-- Python exception values relevant to the embedded code paths.
`httpException` models `fastapi.HTTPException` (which subclasses `Exception`,
so a bare `except Exception` clause catches it too); the others model the
built-in exception classes of the same names. -/
inductive PyExc where
  | httpException (status : Nat) (detail : String)
  | typeError (msg : String)
  | valueError (msg : String)
  | attributeError (msg : String)
  | unboundLocalError (name : String)
deriving DecidableEq

/-- Characters removed by Python str.strip with no argument (modelled for the
ASCII whitespace repertoire; the claims involve no exotic Unicode spaces). -/
def pyIsSpace (c : Char) : Bool :=
  c = ' ' || c = '\t' || c = '\n' || c = '\r' || c = '\x0b' || c = '\x0c'

/-- List form of Python str.strip: drop leading and trailing whitespace. -/
def stripList (l : List Char) : List Char :=
  ((l.dropWhile pyIsSpace).reverse.dropWhile pyIsSpace).reverse

/-- Python str.strip with no argument. -/
def pyStrip (s : String) : String :=
  String.mk (stripList s.data)

/-- Number of characters of `s` satisfying `p`; embeds
`len(re.findall(r"[class]", s))` for a single character class. -/
def charCount (p : Char → Bool) (s : String) : Nat :=
  s.data.countP p

/-- CJK unified ideographs, the regex class `[一-鿿]`. -/
def isChineseChar (c : Char) : Bool :=
  0x4e00 ≤ c.toNat && c.toNat ≤ 0x9fff

/-- ASCII letters, the regex class `[a-zA-Z]`. -/
def isEnglishChar (c : Char) : Bool :=
  (0x41 ≤ c.toNat && c.toNat ≤ 0x5a) || (0x61 ≤ c.toNat && c.toNat ≤ 0x7a)

/-- Japanese hiragana and katakana, the class `[぀-ゟ゠-ヿ]`. -/
def isJapaneseChar (c : Char) : Bool :=
  (0x3040 ≤ c.toNat && c.toNat ≤ 0x309f) || (0x30a0 ≤ c.toNat && c.toNat ≤ 0x30ff)

/-- Korean syllables, the class `[가-힯]`. -/
def isKoreanChar (c : Char) : Bool :=
  0xac00 ≤ c.toNat && c.toNat ≤ 0xd7af

/-- The denominator class
`[\w一-鿿぀-ゟ゠-ヿ가-힯]` of
`PromptManager.detect_language`.  Python `\w` is modelled for the repertoire
the claims exercise: ASCII letters, digits and underscore (CPython `\w` also
matches letters of further scripts; the CJK, kana and Korean ranges are
covered by the explicit ranges of the class, exactly as in the source). -/
def isCountedChar (c : Char) : Bool :=
  isEnglishChar c || (0x30 ≤ c.toNat && c.toNat ≤ 0x39) || c.toNat = 0x5f ||
    isChineseChar c || isJapaneseChar c || isKoreanChar c

/-- `PromptManager.detect_language` (src/src/prompts/prompt_manager.py lines
382-418): strip, return unknown on empty text or when no counted characters
exist, otherwise classify by the ratio cascade.  Ratios are rationals; the
thresholds 0.3, 0.7, 0.2, 0.4 appear as 3/10, 7/10, 1/5, 2/5. -/
def detect_language (text : String) : String :=
  let t := pyStrip text
  if t = "" then "unknown"
  else
    let chinese_chars := charCount isChineseChar t
    let english_chars := charCount isEnglishChar t
    let japanese_chars := charCount isJapaneseChar t
    let korean_chars := charCount isKoreanChar t
    let total_chars := charCount isCountedChar t
    if total_chars = 0 then "unknown"
    else
      let chinese_ratio : ℚ := (chinese_chars : ℚ) / (total_chars : ℚ)
      let english_ratio : ℚ := (english_chars : ℚ) / (total_chars : ℚ)
      let japanese_ratio : ℚ := (japanese_chars : ℚ) / (total_chars : ℚ)
      let korean_ratio : ℚ := (korean_chars : ℚ) / (total_chars : ℚ)
      if chinese_ratio > 3/10 then "zh"
      else if english_ratio > 7/10 then "en"
      else if japanese_ratio > 1/5 then "ja"
      else if korean_ratio > 1/5 then "ko"
      else if english_ratio > 2/5 then "en"
      else "zh"

/-- The claim-side classifier, written from the words of the specification
sentence alone: count the four character classes against the denominator of
all counted characters and apply the threshold cascade in the stated order,
ending at the default zh.  It has no branch for text without counted
characters (the spec sentence mentions none); with rational division,
such text gets all ratios 0 and falls through to the default. -/
def cascade_classify (t : String) : String :=
  let chinese_ratio : ℚ := (charCount isChineseChar t : ℚ) / (charCount isCountedChar t : ℚ)
  let english_ratio : ℚ := (charCount isEnglishChar t : ℚ) / (charCount isCountedChar t : ℚ)
  let japanese_ratio : ℚ := (charCount isJapaneseChar t : ℚ) / (charCount isCountedChar t : ℚ)
  let korean_ratio : ℚ := (charCount isKoreanChar t : ℚ) / (charCount isCountedChar t : ℚ)
  if chinese_ratio > 3/10 then "zh"
  else if english_ratio > 7/10 then "en"
  else if japanese_ratio > 1/5 then "ja"
  else if korean_ratio > 1/5 then "ko"
  else if english_ratio > 2/5 then "en"
  else "zh"

/-- A document chunk as handed to the Document Validator: only the text
content matters to validation. -/
structure Doc where
  page_content : String
deriving DecidableEq

/-- `DocumentValidator.validate_document_content`
(src/src/knowledge_base/document_processor.py lines 354-364): reject falsy or
whitespace-only content, reject trimmed content shorter than 10 characters,
accept otherwise. -/
def validate_document_content (document : Doc) : Bool :=
  if document.page_content = "" || pyStrip document.page_content = "" then false
  else if (pyStrip document.page_content).length < 10 then false
  else true

/-- A web-search result record as the workflow consumes it (the dict produced
by `WebSearchResult.to_dict`, restricted to the fields the workflow reads). -/
structure WebItem where
  title : String
  content : String
  url : String
deriving DecidableEq

/-- The RAG workflow state (`RAGState`) restricted to the fields the
parallel-retrieval stage touches; the open metadata map is represented by one
optional field per key the stage writes. -/
structure RAGStateM where
  query : String
  documents : List Doc := []
  web_results : List WebItem := []
  md_knowledge_error : Option String := none
  md_web_error : Option String := none
  md_knowledge_retrieved : Option Nat := none
  md_web_retrieved : Option Nat := none
  md_total_results : Option Nat := none
  md_successful_sources : Option (List String) := none
  md_retrieval_mode : Option String := none
deriving DecidableEq

/-- Fresh state for one query, as `RAGWorkflow.run` builds it. -/
def initRAGState (query : String) : RAGStateM :=
  { query := query }

/-- `RAGWorkflow._determine_actual_mode` (src/src/rag/workflow.py lines
152-163). -/
def determine_actual_mode (successful_sources : List String) : String :=
  if successful_sources.isEmpty then "No Results"
  else if successful_sources.length = 2 then "Hybrid Mode"
  else if successful_sources.contains "Knowledge Base" then "Knowledge Base Mode"
  else if successful_sources.contains "Web Search" then "Web Mode"
  else "Unknown Mode"

/-- The knowledge-base branch of `parallel_retrieval` (workflow.py lines
103-114): on an exception record the error string and a zero count; on a
result list extend the documents, record the count, and contribute the
source label when at least one document came back.  Returns the updated
state, the contributed successful-source labels, and the result count. -/
def processKbOutcome (st : RAGStateM) (kb : Except String (List Doc)) :
    RAGStateM × List String × Nat :=
  match kb with
  | .error e =>
      ({ st with md_knowledge_error := some e, md_knowledge_retrieved := some 0 }, [], 0)
  | .ok docs =>
      ({ st with documents := st.documents ++ docs,
                 md_knowledge_retrieved := some docs.length },
       if 0 < docs.length then ["Knowledge Base"] else [], docs.length)

/-- The web-search branch of `parallel_retrieval` (workflow.py lines
117-128), symmetric to the knowledge-base branch. -/
def processWebOutcome (st : RAGStateM) (web : Except String (List WebItem)) :
    RAGStateM × List String × Nat :=
  match web with
  | .error e =>
      ({ st with md_web_error := some e, md_web_retrieved := some 0 }, [], 0)
  | .ok results =>
      ({ st with web_results := st.web_results ++ results,
                 md_web_retrieved := some results.length },
       if 0 < results.length then ["Web Search"] else [], results.length)

/-- `RAGWorkflow.parallel_retrieval` (workflow.py lines 79-150).  The two
retrieval tasks are awaited with `asyncio.gather(..., return_exceptions=True)`,
so each outcome arrives as either a result list or an exception value; the
stage itself completes either way.  The elapsed-time metadata key is not
modelled (wall clock). -/
def parallel_retrieval (kb : Except String (List Doc))
    (web : Except String (List WebItem)) (st : RAGStateM) : RAGStateM :=
  let kbStep := processKbOutcome st kb
  let webStep := processWebOutcome kbStep.1 web
  let successful_sources := kbStep.2.1 ++ webStep.2.1
  { webStep.1 with
      md_total_results := some (kbStep.2.2 + webStep.2.2),
      md_successful_sources := some successful_sources,
      md_retrieval_mode := some (determine_actual_mode successful_sources) }

/-- `PromptManager.select_adaptive_prompt` (prompt_manager.py lines 420-429):
both branches of the language test return the adaptive template name. -/
def select_adaptive_prompt (query : String) : String :=
  if detect_language query = "en" then "rag_qa_adaptive" else "rag_qa_adaptive"

/-- The fixed fallback instruction of `generate_response` (workflow.py lines
315-321), built when no retrieval source yielded results. -/
def fallbackPrompt (query : String) : String :=
  "As an AI assistant, I need to answer user questions based on existing knowledge.\n\nUser Question: " ++
    query ++
    "\n\nSince no relevant knowledge base documents or web search results were found, I will answer based on knowledge from training data, but please note the information may not be up to date.\n\nAnswer:"

/-- The prompt chosen by `generate_response`: either a render of a named
template with its variable assignments (the render itself is a Prompt
Manager call), or the literal fallback instruction text. -/
inductive GenPrompt where
  | rendered (template_name : String) (vars : List (String × String))
  | fallbackText (text : String)
deriving DecidableEq

/-- The prompt-selection block of `RAGWorkflow.generate_response`
(workflow.py lines 287-322): branch on the retrieval mode recorded by
`parallel_retrieval`, with the Hybrid branch delegating to
`select_adaptive_prompt` and the final branch substituting the fixed
fallback instruction.  Returns the chosen prompt and the recorded
prompt type. -/
def generate_prompt (query retrieval_mode knowledge_context web_context : String) :
    GenPrompt × String :=
  if retrieval_mode = "Knowledge Base Mode" && !(knowledge_context = "") then
    (.rendered "knowledge_only"
       [("knowledge_context", knowledge_context), ("query", query)], "knowledge_only")
  else if retrieval_mode = "Web Mode" && !(web_context = "") then
    (.rendered "web_only" [("web_context", web_context), ("query", query)], "web_only")
  else if retrieval_mode = "Hybrid Mode" then
    let adaptive_template := select_adaptive_prompt query
    (.rendered adaptive_template
       [("knowledge_context",
         if knowledge_context = "" then "No relevant knowledge base information available"
         else knowledge_context),
        ("web_context",
         if web_context = "" then "No relevant web search information available"
         else web_context),
        ("query", query)], adaptive_template)
  else
    (.fallbackText (fallbackPrompt query), "fallback")

/-- One result row of `DashScopeRerank.rerank`. -/
structure RerankResult where
  index : Nat
  document : String
  relevance_score : ℚ
deriving DecidableEq

/-- One item of the vendor response `resp.output.results`: original-list
index, vendor score, and the optionally echoed document text. -/
structure VendorItem where
  index : Nat
  relevance_score : ℚ
  document : Option String
deriving DecidableEq

/-- Outcome of the vendor call `dashscope.TextReRank.call`: either the call
raised, or it returned a response with an HTTP status code and result
items. -/
inductive VendorResponse where
  | raises (msg : String)
  | response (status_code : Nat) (results : List VendorItem)
deriving DecidableEq

/-- True when the vendor call raised or returned a non-OK status — the two
failure conditions of the claim. -/
def vendorFailed : VendorResponse → Bool
  | .raises _ => true
  | .response code _ => !(code = 200)

/-- The identity-order fallback of `rerank` (dashscope_rerank.py lines
95-102 and 107-114): the first `top_n` documents in original order with the
synthetic descending scores `1.0 - (i * 0.1)`. -/
def rerankFallback (top_n : Nat) (documents : List String) : List RerankResult :=
  (documents.take top_n).enum.map fun p =>
    { index := p.1, document := p.2, relevance_score := 1 - (p.1 : ℚ) * (1/10) }

/-- One row of the success path of `rerank` (dashscope_rerank.py lines
77-88): echo the vendor document when requested and present, otherwise look
the text up in the original list by vendor index (`none` models the
`IndexError` an out-of-range vendor index would raise, which the enclosing
`try` turns into the fallback). -/
def rerankOkRow (return_documents : Bool) (documents : List String)
    (it : VendorItem) : Option RerankResult :=
  if return_documents && it.document.isSome then
    some { index := it.index, document := it.document.getD "",
           relevance_score := it.relevance_score }
  else
    (documents.get? it.index).map fun d =>
      { index := it.index, document := d, relevance_score := it.relevance_score }

/-- `DashScopeRerank.rerank` (dashscope_rerank.py lines 46-114).  `top_n?`
models the optional argument defaulting to the constructed `top_n`; the
vendor call outcome is an oracle parameter.  Python counts are modelled as
naturals. -/
def rerank (self_top_n : Nat) (return_documents : Bool)
    (vendor : VendorResponse) (query : String) (documents : List String)
    (top_n? : Option Nat) : List RerankResult :=
  let top_n := top_n?.getD self_top_n
  match vendor with
  | .raises _ => rerankFallback top_n documents
  | .response code items =>
    if code = 200 then
      match items.mapM (rerankOkRow return_documents documents) with
      | some results => results
      | none => rerankFallback top_n documents
    else rerankFallback top_n documents

/-- A web search result as produced by the search engines
(src/src/search/web_search.py lines 14-36), restricted to the non-timestamp
fields. -/
structure WebSearchResultM where
  title : String
  content : String
  url : String
  score : ℚ
  source : String
deriving DecidableEq

/-- `DuckDuckGoSearchEngine.search` (web_search.py lines 132-147): a pure
stub that returns one synthetic placeholder result and cannot raise.  The
source formats the query into the title and content with quotation marks
around the content occurrence. -/
def duckduckgo_search (query : String) : List WebSearchResultM :=
  [{ title := "DuckDuckGo search result: " ++ query,
     content := "This is search result content about " ++ query,
     url := "https://duckduckgo.com",
     score := 4/5,
     source := "duckduckgo" }]

/-- `WebSearchManager.search` (web_search.py lines 169-206).  The manager
holds a Tavily engine only when an API key is configured
(`tavily_configured`); the Tavily network call is an oracle parameter whose
`error` case models an exception reaching the manager.  The backup engine is
always constructed, so the backup branch always runs when the primary path
yields nothing. -/
def web_search_manager_search (tavily_configured : Bool)
    (tavily_call : Except String (List WebSearchResultM))
    (query : String) (preferred_engine : String) : List WebSearchResultM :=
  if preferred_engine = "tavily" && tavily_configured then
    match tavily_call with
    | .ok results => if results.isEmpty then duckduckgo_search query else results
    | .error _ => duckduckgo_search query
  else duckduckgo_search query

/-- One entry of the per-file result list of the batch upload endpoint,
restricted to the fields the aggregation reads (`filename` and the `success`
flag consulted by `r.get("success", False)`). -/
structure ResultEntry where
  filename : String
  success : Bool
deriving DecidableEq

/-- What happened when the endpoint handed one upload to
`knowledge_base_manager.add_file`: the call returned a result dict with a
success flag, or it (or the temporary-file handling around it) raised. -/
inductive UploadOutcome where
  | add_ok (success : Bool)
  | add_raises (msg : String)
deriving DecidableEq

/-- One upload of the batch, with the outcomes of the two checks and of the
processing call supplied as oracles: `filename` (the empty string models a
missing/falsy filename), the verdict of
`doc_processor.is_supported_file`, and the `add_file` outcome. -/
structure UploadSim where
  filename : String
  supported : Bool
  outcome : UploadOutcome
deriving DecidableEq

/-- The per-file body of the `upload_files` loop
(src/app/api/knowledge_base.py lines 59-100): a missing name, an unsupported
type, and a raised processing error each append a failure entry for that
file and continue; a completed `add_file` call appends its result dict. -/
def process_upload (u : UploadSim) : ResultEntry :=
  if u.filename = "" then { filename := "unknown", success := false }
  else if !u.supported then { filename := u.filename, success := false }
  else match u.outcome with
    | .add_ok s => { filename := u.filename, success := s }
    | .add_raises _ => { filename := u.filename, success := false }

/-- The response of `POST /upload-files` (knowledge_base.py lines 102-112). -/
structure UploadFilesResponse where
  total_files : Nat
  successful_files : Nat
  failed_files : Nat
  success_rate : ℚ
  results : List ResultEntry
deriving DecidableEq

/-- `upload_files` (knowledge_base.py lines 54-112): run the fault-isolated
per-file flow over the batch and aggregate counts and the success-rate
percentage. -/
def upload_files (files : List UploadSim) : UploadFilesResponse :=
  let results := files.map process_upload
  let total_files := results.length
  let successful_files := results.countP fun r => r.success
  { total_files := total_files,
    successful_files := successful_files,
    failed_files := total_files - successful_files,
    success_rate :=
      if 0 < total_files then (successful_files : ℚ) / (total_files : ℚ) * 100 else 0,
    results := results }

/-- The declared field names of the `Settings` class
(src/config/settings.py lines 31-101), in source order. -/
def settingsFieldNames : List String :=
  ["api_host", "api_port", "api_workers", "api_reload",
   "milvus_host", "milvus_port", "milvus_user", "milvus_password",
   "redis_url", "redis_password", "attu_port",
   "openai_api_key", "dashscope_api_key", "tavily_api_key", "langsmith_api_key",
   "default_chat_model", "default_embedding_model", "default_reranking_model",
   "langsmith_project", "langsmith_tracing",
   "log_level", "log_format", "log_file",
   "api_key_header", "allowed_origins", "cors_enabled",
   "max_concurrent_requests", "request_timeout",
   "embedding_batch_size", "reranking_batch_size",
   "knowledge_base_path", "upload_max_size", "supported_file_types",
   "enable_metrics", "metrics_port", "health_check_interval",
   "debug", "testing"]

/-- Attribute assignment on the pydantic `Settings` model: pydantic v2
rejects setting an attribute that is not a declared field with
`ValueError: object has no field ...`. -/
def pydanticSetAttr (field : String) : Except PyExc Unit :=
  if settingsFieldNames.contains field then .ok ()
  else .error (.valueError ("Settings object has no field " ++ field))

/-- Attribute read on the pydantic `Settings` model: reading an attribute
that is not a declared field raises `AttributeError`. -/
def pydanticGetAttr (field : String) : Except PyExc Unit :=
  if settingsFieldNames.contains field then .ok ()
  else .error (.attributeError ("Settings object has no attribute " ++ field))

/-- `POST /switch-kb` (src/app/api/chat.py lines 356-381), returning the HTTP
status the client sees.  This endpoint re-raises `HTTPException` before its
catch-all (`except HTTPException: raise`), so the 404 survives; any other
exception — in particular the failing attribute assignment — becomes a 500. -/
def switch_kb_endpoint (kbs : List String) (collection_name : String) : Nat :=
  if !(kbs.contains collection_name) then 404
  else
    match pydanticSetAttr "current_collection_name" with
    | .ok _ => 200
    | .error _ => 500

/-- Result dict of `KnowledgeBaseManager.switch_knowledge_base`, restricted
to the fields the claim concerns. -/
structure SwitchResult where
  success : Bool
  collection_name : Option String
deriving DecidableEq

/-- `KnowledgeBaseManager.switch_knowledge_base`
(src/src/knowledge_base/knowledge_base_manager.py lines 448-476): validate
existence, then update the process environment variable
CURRENT_COLLECTION_NAME (modelled as a key-value list with newest binding
first).  The `Settings` object is not touched by this operation. -/
def kbm_switch_knowledge_base (kbs : List String)
    (environ : List (String × String)) (collection_name : String) :
    SwitchResult × List (String × String) :=
  if !(kbs.contains collection_name) then
    ({ success := false, collection_name := none }, environ)
  else
    ({ success := true, collection_name := some collection_name },
     ("CURRENT_COLLECTION_NAME", collection_name) :: environ)

/-- Keyword parameter names of `ModelConfig.get_vector_store`
(src/config/settings.py line 246): `def get_vector_store(self, store_name:
str = None)`. -/
def get_vector_store_params : List String := ["store_name"]

/-- Positional parameter count of
`KnowledgeBaseManager.get_knowledge_base_stats` besides `self`
(knowledge_base_manager.py line 265): `def get_knowledge_base_stats(self)`. -/
def get_knowledge_base_stats_positional_params : Nat := 0

/-- Binding of keyword arguments at a Python call site: a keyword that is not
among the callee parameter names raises `TypeError: got an unexpected
keyword argument`. -/
def bindKwargs (params : List String) (kwargs : List String) :
    Except PyExc Unit :=
  if kwargs.all (fun k => params.contains k) then .ok ()
  else .error (.typeError "got an unexpected keyword argument")

/-- One vector-store entry of the model catalog
(`vector_stores.<name>` in config/models.yaml as read by
`get_vector_store`). -/
structure VectorStoreEntry where
  collection_name : String
  enable_dynamic_field : Bool
  auto_id : Bool
  drop_old : Bool
deriving DecidableEq

/-- The slice of the parsed model catalog that `get_vector_store` reads. -/
structure Catalog where
  default_vector_store : String
  vector_stores : List (String × VectorStoreEntry)
deriving DecidableEq

/-- The constructed Milvus handle, restricted to the binding-relevant
fields. -/
structure MilvusHandle where
  collection_name : String
  enable_dynamic_field : Bool
  auto_id : Bool
  drop_old : Bool
deriving DecidableEq

/-- `ModelConfig.get_vector_store` (settings.py lines 246-281): resolve the
optional store name against the catalog default, fail on an unknown store,
and construct a handle whose collection name is the catalog entry declared
`collection_name` — the parameter selects a catalog entry, it is not a
collection-name override. -/
def get_vector_store (cat : Catalog) (store_name : Option String) :
    Except PyExc MilvusHandle :=
  match cat.vector_stores.lookup (store_name.getD cat.default_vector_store) with
  | none => .error (.valueError ("vector store "
      ++ store_name.getD cat.default_vector_store ++ " not found"))
  | some sc =>
      .ok { collection_name := sc.collection_name,
            enable_dynamic_field := sc.enable_dynamic_field,
            auto_id := sc.auto_id,
            drop_old := sc.drop_old }

/-- The constructed `VectorStoreManager`, as bound by its `__init__`. -/
structure VSManager where
  collection_name : Option String
  vector_store : MilvusHandle
  batch_size : Nat
deriving DecidableEq

/-- `VectorStoreManager.__init__`
(src/src/knowledge_base/vector_store_manager.py lines 18-21): the source
calls `model_config.get_vector_store(collection_name=collection_name)`, so
the keyword `collection_name` must first bind against the parameter list of
`get_vector_store`. -/
def vector_store_manager_init (cat : Catalog) (batch_size : Nat)
    (collection_name : Option String) : Except PyExc VSManager :=
  match bindKwargs get_vector_store_params ["collection_name"] with
  | .error e => .error e
  | .ok _ =>
      match get_vector_store cat collection_name with
      | .error e => .error e
      | .ok h =>
          .ok { collection_name := collection_name, vector_store := h,
                batch_size := batch_size }

/-- The dict returned by `KnowledgeBaseManager.get_knowledge_base_stats`, as
consulted by the listing endpoint via `stats.get("total_documents", 0)` and
`stats.get("last_updated", "")` (both keys are optional dict lookups). -/
structure KBStats where
  total_documents : Option Nat
  last_updated : Option String
deriving DecidableEq

/-- The call `kb_manager.get_knowledge_base_stats(kb_name)` at
src/app/api/chat.py line 332: one positional argument is passed to a method
declared with no positional parameters besides `self`, so the call raises
`TypeError` before the method body runs.  `statsOf` is the statistics the
method would compute for the collection if it were reached. -/
def call_get_knowledge_base_stats (statsOf : String → KBStats)
    (kb_name : String) : Except PyExc KBStats :=
  if 1 ≤ get_knowledge_base_stats_positional_params then .ok (statsOf kb_name)
  else .error (.typeError
    "get_knowledge_base_stats() takes 1 positional argument but 2 were given")

/-- One entry of the `GET /knowledge-bases` response (`KnowledgeBaseInfo`,
src/app/api/chat.py lines 42-48). -/
structure KnowledgeBaseInfo where
  name : String
  description : String
  document_count : Nat
  collection_name : String
  last_updated : String
deriving DecidableEq

/-- `GET /knowledge-bases` (`list_knowledge_bases`, src/app/api/chat.py lines
322-353): for each knowledge base attempt the statistics call; on any
exception fall back to the zeroed/placeholder entry. -/
def list_knowledge_bases_endpoint (kbs : List String)
    (statsOf : String → KBStats) : List KnowledgeBaseInfo :=
  kbs.map fun kb_name =>
    match call_get_knowledge_base_stats statsOf kb_name with
    | .ok stats =>
        { name := kb_name,
          description := "Knowledge Base " ++ kb_name,
          document_count := stats.total_documents.getD 0,
          collection_name := kb_name,
          last_updated := stats.last_updated.getD "" }
    | .error _ =>
        { name := kb_name,
          description := "Knowledge Base " ++ kb_name,
          document_count := 0,
          collection_name := kb_name,
          last_updated := "" }

/-- Outcome of the `try` block of `chat_with_assistant`: the computation
result, and whether the local variable `original_collection` was bound
before the block ended. -/
structure ChatTryOutcome where
  result : Except PyExc Unit
  original_bound : Bool

/-- The `try` block of `POST /chat` (`chat_with_assistant`,
src/app/api/chat.py lines 64-163) up to the collection handling: when a
collection name is supplied, validate it (raising `HTTPException(404)` if
absent), then read the current pointer into `original_collection` (line 77)
and assign the requested name (line 78).  `rest` is an oracle for the
remainder of the block (workflow invocation and response assembly). -/
def chat_try_body (kbs : List String) (collection_name : Option String)
    (rest : Except PyExc Unit) : ChatTryOutcome :=
  match collection_name with
  | none => { result := rest, original_bound := false }
  | some n =>
      if kbs.contains n then
        match pydanticGetAttr "current_collection_name" with
        | .error e => { result := .error e, original_bound := false }
        | .ok _ =>
            match pydanticSetAttr "current_collection_name" with
            | .error e => { result := .error e, original_bound := true }
            | .ok _ => { result := rest, original_bound := true }
      else
        { result := .error (.httpException 404
            ("Knowledge base " ++ n ++ " does not exist")),
          original_bound := false }

/-- The `except Exception` handler of `chat_with_assistant` (chat.py lines
165-170).  It catches every exception, `HTTPException(404)` included.  When
a collection name was supplied it first restores
`get_settings().current_collection_name = original_collection`; if the
exception arrived before line 77 bound that local, the restore itself raises
`UnboundLocalError`, which replaces the original exception; otherwise the
handler raises `HTTPException(500, ...)`. -/
def chat_except_handler (collection_name : Option String)
    (original_bound : Bool) (e : PyExc) : PyExc :=
  if collection_name.isSome then
    if original_bound then
      match pydanticSetAttr "current_collection_name" with
      | .error e2 => e2
      | .ok _ => .httpException 500 ("Error occurred while processing request: "
          ++ "see detail")
    else .unboundLocalError "original_collection"
  else .httpException 500 ("Error occurred while processing request: "
      ++ "see detail")

/-- The FastAPI boundary: an uncaught `HTTPException` becomes a response
with its status code; any other uncaught exception becomes a 500 response
via the framework handler. -/
def fastapi_status : Except PyExc Unit → Nat
  | .ok _ => 200
  | .error (.httpException s _) => s
  | .error _ => 500

/-- HTTP status a client of `POST /chat` sees: run the `try` block; route any
exception through the endpoint catch-all, then through the FastAPI
boundary. -/
def chat_endpoint_status (kbs : List String) (collection_name : Option String)
    (rest : Except PyExc Unit) : Nat :=
  let t := chat_try_body kbs collection_name rest
  match t.result with
  | .ok _ => 200
  | .error e =>
      fastapi_status (.error (chat_except_handler collection_name t.original_bound e))

lemma countP_dropWhile_of_disjoint (p q : Char → Bool)
    (h : ∀ c, q c = true → p c = false) :
    ∀ l : List Char, (l.dropWhile q).countP p = l.countP p := by
  intro l
  induction l with
  | nil => rfl
  | cons c t ih =>
    by_cases hc : q c = true
    · rw [List.dropWhile_cons_of_pos hc, ih, List.countP_cons, h c hc]
      simp
    · rw [List.dropWhile_cons_of_neg hc]

lemma countP_stripList_eq (p : Char → Bool)
    (h : ∀ c, pyIsSpace c = true → p c = false) (l : List Char) :
    (stripList l).countP p = l.countP p := by
  unfold stripList
  rw [List.countP_reverse, countP_dropWhile_of_disjoint p pyIsSpace h,
    List.countP_reverse, countP_dropWhile_of_disjoint p pyIsSpace h]

lemma pyIsSpace_cases (c : Char) (hc : pyIsSpace c = true) :
    c = ' ' ∨ c = '\t' ∨ c = '\n' ∨ c = '\r' ∨ c = '\x0b' ∨ c = '\x0c' := by
  simp only [pyIsSpace, Bool.or_eq_true, decide_eq_true_eq] at hc
  tauto

lemma space_not_chinese (c : Char) (hc : pyIsSpace c = true) :
    isChineseChar c = false := by
  rcases pyIsSpace_cases c hc with h | h | h | h | h | h <;> subst h <;> decide

lemma space_not_counted (c : Char) (hc : pyIsSpace c = true) :
    isCountedChar c = false := by
  rcases pyIsSpace_cases c hc with h | h | h | h | h | h <;> subst h <;> decide

lemma charCount_pyStrip_chinese (s : String) :
    charCount isChineseChar (pyStrip s) = charCount isChineseChar s := by
  simp only [charCount, pyStrip]
  exact countP_stripList_eq isChineseChar space_not_chinese s.data

lemma charCount_pyStrip_counted (s : String) :
    charCount isCountedChar (pyStrip s) = charCount isCountedChar s := by
  simp only [charCount, pyStrip]
  exact countP_stripList_eq isCountedChar space_not_counted s.data

/-- C8: the Document Validator accepts a chunk exactly when its
whitespace-trimmed content has at least 10 characters; in particular a
9-character trimmed chunk is rejected, a 10-character one accepted, and
empty or whitespace-only chunks are always rejected. -/
theorem validate_document_content_iff_trimmed_ge_ten :
    ∀ d : Doc, validate_document_content d = true ↔
      10 ≤ (pyStrip d.page_content).length := by
  intro d
  unfold validate_document_content
  split_ifs with h1 h2
  · rcases Bool.or_eq_true_iff.mp h1 with h | h
    · have he : d.page_content = "" := by simpa using h
      rw [he]
      simp [pyStrip, stripList]
    · have he : pyStrip d.page_content = "" := by simpa using h
      rw [he]
      simp
  · simp only [Bool.false_eq_true, false_iff]
    omega
  · simp only [true_iff]
    omega

/-- C9: every entry returned by the knowledge-base listing endpoint carries
the zeroed placeholder statistics, for every set of collections and every
actual per-collection statistics function: the statistics call passes a
positional argument the method does not accept, so it raises TypeError for
every collection and the fallback branch always runs. -/
theorem list_knowledge_bases_always_placeholder :
    ∀ (kbs : List String) (statsOf : String → KBStats),
      list_knowledge_bases_endpoint kbs statsOf =
        kbs.map fun n =>
          { name := n, description := "Knowledge Base " ++ n, document_count := 0,
            collection_name := n, last_updated := "" } := by
  intro kbs statsOf
  unfold list_knowledge_bases_endpoint call_get_knowledge_base_stats
  simp [get_knowledge_base_stats_positional_params]

/-- C10: the web-search manager returns a non-empty list on every path on
which the backup engine does not raise (the backup stub is pure and cannot
raise): a successful non-empty primary result is returned as-is, and an
unconfigured primary, a raising primary, or a zero-result primary each fall
through to the backup engine, which supplies exactly one synthetic
placeholder result. -/
theorem web_search_manager_search_nonempty :
    (∀ (cfg : Bool) (call : Except String (List WebSearchResultM)) (q pe : String),
        0 < (web_search_manager_search cfg call q pe).length) ∧
    (∀ (cfg : Bool) (q pe : String),
        web_search_manager_search cfg (.ok []) q pe = duckduckgo_search q) ∧
    (∀ (cfg : Bool) (msg : String) (q pe : String),
        web_search_manager_search cfg (.error msg) q pe = duckduckgo_search q) ∧
    (∀ (call : Except String (List WebSearchResultM)) (q pe : String),
        web_search_manager_search false call q pe = duckduckgo_search q) ∧
    (∀ q : String, (duckduckgo_search q).length = 1) := by
  refine ⟨?_, ?_, ?_, ?_, ?_⟩
  · intro cfg call q pe
    unfold web_search_manager_search
    split
    · match call with
      | .ok results =>
        by_cases hr : results.isEmpty
        · simp [hr, duckduckgo_search]
        · have : results ≠ [] := by simpa [List.isEmpty_iff] using hr
          simp [hr, List.length_pos.mpr this]
      | .error _ => simp [duckduckgo_search]
    · simp [duckduckgo_search]
  · intro cfg q pe
    unfold web_search_manager_search
    split <;> simp
  · intro cfg msg q pe
    unfold web_search_manager_search
    split <;> simp
  · intro call q pe
    simp [web_search_manager_search]
  · intro q
    simp [duckduckgo_search]

/-- C6 counterexample: the input consisting of three exclamation marks is
neither empty nor whitespace-only, yet `detect_language` returns unknown,
while the threshold cascade of the claim (whose final branch is the default
zh) classifies it as zh — the claim omits the branch for text containing no
word/CJK/Japanese/Korean characters. -/
theorem detect_language_not_cascade_on_bang :
    pyStrip "!!!" ≠ "" ∧ detect_language "!!!" = "unknown" ∧
      cascade_classify (pyStrip "!!!") = "zh" := by
  refine ⟨by decide, by decide, ?_⟩
  have h1 : charCount isChineseChar (pyStrip "!!!") = 0 := by decide
  have h2 : charCount isEnglishChar (pyStrip "!!!") = 0 := by decide
  have h3 : charCount isJapaneseChar (pyStrip "!!!") = 0 := by decide
  have h4 : charCount isKoreanChar (pyStrip "!!!") = 0 := by decide
  have h5 : charCount isCountedChar (pyStrip "!!!") = 0 := by decide
  simp [cascade_classify, h1, h2, h3, h4, h5]
  norm_num

/-- C6 (amended): `detect_language` returns unknown for empty or
whitespace-only input AND for input whose stripped text contains no counted
(word/CJK/Japanese/Korean) characters; every other input is classified by
the exact threshold cascade of the claim; in particular any input whose
Chinese-character ratio exceeds 3/10 yields zh. -/
theorem detect_language_follows_cascade :
    ∀ text : String,
      detect_language text =
        (if pyStrip text = "" then "unknown"
         else if charCount isCountedChar (pyStrip text) = 0 then "unknown"
         else cascade_classify (pyStrip text)) ∧
      ((3 / 10 : ℚ) <
          (charCount isChineseChar text : ℚ) / (charCount isCountedChar text : ℚ) →
        detect_language text = "zh") := by
  intro text
  constructor
  · by_cases h1 : pyStrip text = ""
    · simp [detect_language, h1]
    · by_cases h2 : charCount isCountedChar (pyStrip text) = 0
      · simp [detect_language, h1, h2]
      · simp [detect_language, cascade_classify, h1, h2]
  · intro h
    have hchin := charCount_pyStrip_chinese text
    have htot := charCount_pyStrip_counted text
    have htot0 : charCount isCountedChar text ≠ 0 := by
      intro h0
      rw [h0] at h
      norm_num at h
    have hchin0 : charCount isChineseChar text ≠ 0 := by
      intro h0
      rw [h0] at h
      norm_num at h
    have hs : pyStrip text ≠ "" := by
      intro he
      rw [he] at htot
      have : charCount isCountedChar "" = 0 := rfl
      rw [this] at htot
      exact htot0 htot.symm
    have htots : charCount isCountedChar (pyStrip text) ≠ 0 := by
      rw [htot]
      exact htot0
    have hratio : (3 / 10 : ℚ) <
        (charCount isChineseChar (pyStrip text) : ℚ) /
          (charCount isCountedChar (pyStrip text) : ℚ) := by
      rw [hchin, htot]
      exact h
    simp [detect_language, hs, htots, hratio]

lemma rerankFallback_spec (n : Nat) (documents : List String) :
    (rerankFallback n documents).length = min n documents.length ∧
    (rerankFallback n documents).map RerankResult.document = documents.take n ∧
    (rerankFallback n documents).map RerankResult.index =
      List.range (min n documents.length) ∧
    (rerankFallback n documents).map RerankResult.relevance_score =
      (List.range (min n documents.length)).map (fun i : Nat => 1 - (i : ℚ) * (1/10)) := by
  refine ⟨?_, ?_, ?_, ?_⟩
  · simp [rerankFallback]
  · rw [rerankFallback, List.map_map]
    have : (RerankResult.document ∘ fun p : Nat × String =>
        RerankResult.mk p.1 p.2 (1 - (p.1 : ℚ) * (1/10))) = Prod.snd := by
      funext p
      rfl
    rw [this, List.enum_map_snd]
  · rw [rerankFallback, List.map_map]
    have : (RerankResult.index ∘ fun p : Nat × String =>
        RerankResult.mk p.1 p.2 (1 - (p.1 : ℚ) * (1/10))) = Prod.fst := by
      funext p
      rfl
    rw [this, List.enum_map_fst, List.length_take]
  · rw [rerankFallback, List.map_map]
    have : (RerankResult.relevance_score ∘ fun p : Nat × String =>
        RerankResult.mk p.1 p.2 (1 - (p.1 : ℚ) * (1/10))) =
        (fun i : Nat => 1 - (i : ℚ) * (1/10)) ∘ Prod.fst := by
      funext p
      rfl
    rw [this, ← List.map_map, List.enum_map_fst, List.length_take]

/-- C5: whenever the vendor rerank call raises or returns a non-success
status, `rerank` with `top_n = n` does not raise and returns exactly
`min n (number of documents)` results, in original document order, the
result at position i carrying index i and relevance score `1 - i * (1/10)`. -/
theorem rerank_vendor_failure_identity_fallback :
    ∀ (self_top_n n : Nat) (rd : Bool) (vendor : VendorResponse) (q : String)
      (documents : List String),
      vendorFailed vendor = true →
        (rerank self_top_n rd vendor q documents (some n)).length =
          min n documents.length ∧
        (rerank self_top_n rd vendor q documents (some n)).map
          RerankResult.document = documents.take n ∧
        (rerank self_top_n rd vendor q documents (some n)).map
          RerankResult.index = List.range (min n documents.length) ∧
        (rerank self_top_n rd vendor q documents (some n)).map
          RerankResult.relevance_score =
          (List.range (min n documents.length)).map (fun i : Nat => 1 - (i : ℚ) * (1/10)) := by
  intro self_top_n n rd vendor q documents hfail
  have hred : rerank self_top_n rd vendor q documents (some n) =
      rerankFallback n documents := by
    match vendor with
    | .raises msg => rfl
    | .response code items =>
      have hcode : ¬(code = 200) := by
        simpa [vendorFailed] using hfail
      simp [rerank, hcode]
  rw [hred]
  exact rerankFallback_spec n documents

/-- C5 witness: a raising vendor call on a three-document list with
`top_n = 2` yields exactly two results. -/
theorem rerank_vendor_failure_identity_fallback_witness :
    vendorFailed (VendorResponse.raises "boom") = true ∧
      (rerank 10 true (VendorResponse.raises "boom") "q" ["a", "b", "c"]
        (some 2)).length = min 2 3 ∧
      (rerank 10 true (VendorResponse.raises "boom") "q" ["a", "b", "c"]
        (some 2)).map RerankResult.document = ["a", "b", "c"].take 2 :=
  ⟨by decide,
   (rerank_vendor_failure_identity_fallback 10 2 true (VendorResponse.raises "boom")
     "q" ["a", "b", "c"] (by decide)).1,
   (rerank_vendor_failure_identity_fallback 10 2 true (VendorResponse.raises "boom")
     "q" ["a", "b", "c"] (by decide)).2.1⟩

/-- C6 witness: a Chinese two-character query has Chinese-character ratio 1,
which exceeds 3/10, and is classified zh. -/
theorem detect_language_follows_cascade_witness :
    ((3 / 10 : ℚ) <
        (charCount isChineseChar "中文" : ℚ) / (charCount isCountedChar "中文" : ℚ)) ∧
      detect_language "中文" = "zh" := by
  have h : (3 / 10 : ℚ) <
      (charCount isChineseChar "中文" : ℚ) / (charCount isCountedChar "中文" : ℚ) := by
    have hc : charCount isChineseChar "中文" = 2 := by decide
    have ht : charCount isCountedChar "中文" = 2 := by decide
    rw [hc, ht]
    norm_num
  exact ⟨h, (detect_language_follows_cascade "中文").2 h⟩

/-- C4: a failure of one retrieval source never fails the parallel-retrieval
stage.  A raising knowledge-base search combined with a two-result web
search leaves a completed state recording the knowledge-base error, zero
knowledge documents, the two web results, and the Web-only execution mode
(spelled "Web Mode" by the code); the symmetric case records the
Knowledge-Base-only mode ("Knowledge Base Mode"); and when both sources
fail the mode is No-Results ("No Results") and the generation stage selects
the fixed fallback instruction instead of failing. -/
theorem parallel_retrieval_fault_isolation :
    (∀ (err q : String) (webs : List WebItem), webs.length = 2 →
        (parallel_retrieval (.error err) (.ok webs) (initRAGState q)).md_knowledge_error
            = some err ∧
        (parallel_retrieval (.error err) (.ok webs) (initRAGState q)).md_knowledge_retrieved
            = some 0 ∧
        (parallel_retrieval (.error err) (.ok webs) (initRAGState q)).documents = [] ∧
        (parallel_retrieval (.error err) (.ok webs) (initRAGState q)).md_web_retrieved
            = some 2 ∧
        (parallel_retrieval (.error err) (.ok webs) (initRAGState q)).web_results = webs ∧
        (parallel_retrieval (.error err) (.ok webs) (initRAGState q)).md_retrieval_mode
            = some "Web Mode") ∧
    (∀ (err q : String) (docs : List Doc), docs.length = 2 →
        (parallel_retrieval (.ok docs) (.error err) (initRAGState q)).md_web_error
            = some err ∧
        (parallel_retrieval (.ok docs) (.error err) (initRAGState q)).md_web_retrieved
            = some 0 ∧
        (parallel_retrieval (.ok docs) (.error err) (initRAGState q)).web_results = [] ∧
        (parallel_retrieval (.ok docs) (.error err) (initRAGState q)).md_knowledge_retrieved
            = some 2 ∧
        (parallel_retrieval (.ok docs) (.error err) (initRAGState q)).documents = docs ∧
        (parallel_retrieval (.ok docs) (.error err) (initRAGState q)).md_retrieval_mode
            = some "Knowledge Base Mode") ∧
    (∀ (e1 e2 q kc wc : String),
        (parallel_retrieval (.error e1) (.error e2) (initRAGState q)).md_retrieval_mode
            = some "No Results" ∧
        generate_prompt q "No Results" kc wc =
          (.fallbackText (fallbackPrompt q), "fallback")) := by
  refine ⟨?_, ?_, ?_⟩
  · intro err q webs h
    have hpos : 0 < webs.length := by omega
    refine ⟨rfl, rfl, rfl, ?_, ?_, ?_⟩ <;>
      simp [parallel_retrieval, processKbOutcome, processWebOutcome, initRAGState,
        determine_actual_mode, h, hpos]
  · intro err q docs h
    have hpos : 0 < docs.length := by omega
    refine ⟨rfl, rfl, rfl, ?_, ?_, ?_⟩ <;>
      simp [parallel_retrieval, processKbOutcome, processWebOutcome, initRAGState,
        determine_actual_mode, h, hpos]
  · intro e1 e2 q kc wc
    constructor
    · simp [parallel_retrieval, processKbOutcome, processWebOutcome, initRAGState,
        determine_actual_mode]
    · simp [generate_prompt]

/-- C4 witness: concrete two-result lists for both asymmetric scenarios and a
concrete both-fail run. -/
theorem parallel_retrieval_fault_isolation_witness :
    ([⟨"t1", "c1", "u1"⟩, ⟨"t2", "c2", "u2"⟩] : List WebItem).length = 2 ∧
    (parallel_retrieval (.error "kb boom")
        (.ok [⟨"t1", "c1", "u1"⟩, ⟨"t2", "c2", "u2"⟩])
        (initRAGState "q")).md_retrieval_mode = some "Web Mode" ∧
    ([⟨"d1"⟩, ⟨"d2"⟩] : List Doc).length = 2 ∧
    (parallel_retrieval (.ok [⟨"d1"⟩, ⟨"d2"⟩]) (.error "web boom")
        (initRAGState "q")).md_retrieval_mode = some "Knowledge Base Mode" ∧
    generate_prompt "q" "No Results" "" "" =
      (.fallbackText (fallbackPrompt "q"), "fallback") :=
  ⟨rfl,
   (parallel_retrieval_fault_isolation.1 "kb boom" "q"
     [⟨"t1", "c1", "u1"⟩, ⟨"t2", "c2", "u2"⟩] rfl).2.2.2.2.2,
   rfl,
   (parallel_retrieval_fault_isolation.2.1 "web boom" "q" [⟨"d1"⟩, ⟨"d2"⟩]
     rfl).2.2.2.2.2,
   (parallel_retrieval_fault_isolation.2.2 "e1" "e2" "q" "" "").2⟩

/-- C3 (code bug): for a POST /chat request naming a knowledge base that does
not exist, the try block raises HTTPException(404) exactly as intended, but
the catch-all except Exception clause of the endpoint intercepts it (and its
restore step references the never-bound local original_collection), so the
client receives HTTP 500, not the 404 the claim and the code itself
intend. -/
theorem chat_nonexistent_collection_returns_500 :
    ∀ (kbs : List String) (n : String) (rest : Except PyExc Unit),
      kbs.contains n = false →
        (chat_try_body kbs (some n) rest).result =
          .error (.httpException 404 ("Knowledge base " ++ n ++ " does not exist")) ∧
        chat_endpoint_status kbs (some n) rest = 500 := by
  intro kbs n rest h
  have hm : n ∉ kbs := by simpa using h
  constructor
  · simp [chat_try_body, hm]
  · simp [chat_endpoint_status, chat_try_body, chat_except_handler, fastapi_status, hm]

/-- C3 witness: an empty collection catalog and the request collection
name missing yield status 500. -/
theorem chat_nonexistent_collection_returns_500_witness :
    (([] : List String).contains "missing") = false ∧
      chat_endpoint_status [] (some "missing") (.ok ()) = 500 :=
  ⟨by decide,
   (chat_nonexistent_collection_returns_500 [] "missing" (.ok ()) (by decide)).2⟩

/-- C1 (code bug): the Settings record declares no field named
current_collection_name, so reading it raises AttributeError; the
switch-knowledge-base HTTP endpoint consequently answers 500 for every
existing collection (its assignment to the undeclared field raises inside
the try block), and the manager-level switch operation succeeds by mutating
the CURRENT_COLLECTION_NAME environment variable while never touching the
Settings object — reading Settings.current_collection_name after it still
raises rather than yielding the new name. -/
theorem settings_has_no_current_collection_field :
    settingsFieldNames.contains "current_collection_name" = false ∧
    pydanticGetAttr "current_collection_name" =
      .error (.attributeError
        "Settings object has no attribute current_collection_name") ∧
    (∀ (kbs : List String) (n : String), kbs.contains n = true →
        switch_kb_endpoint kbs n = 500) ∧
    (∀ (kbs : List String) (environ : List (String × String)) (n : String),
        kbs.contains n = true →
          (kbm_switch_knowledge_base kbs environ n).1.success = true ∧
          (kbm_switch_knowledge_base kbs environ n).2.lookup
            "CURRENT_COLLECTION_NAME" = some n) := by
  have hf : settingsFieldNames.contains "current_collection_name" = false := by decide
  have hf2 : "current_collection_name" ∉ settingsFieldNames := by simpa using hf
  refine ⟨hf, ?_, ?_, ?_⟩
  · simp [pydanticGetAttr, hf2]
  · intro kbs n h
    have hm : n ∈ kbs := by simpa using h
    simp [switch_kb_endpoint, hm, pydanticSetAttr, hf2]
  · intro kbs environ n h
    have hm : n ∈ kbs := by simpa using h
    constructor
    · simp [kbm_switch_knowledge_base, hm]
    · simp [kbm_switch_knowledge_base, hm, List.lookup]

/-- C1 witness: with one existing collection kb1, the HTTP switch endpoint
answers 500, and the manager-level switch reports success while recording
the name only in the process environment. -/
theorem settings_has_no_current_collection_field_witness :
    (["kb1"].contains "kb1") = true ∧
      switch_kb_endpoint ["kb1"] "kb1" = 500 ∧
      (kbm_switch_knowledge_base ["kb1"] [] "kb1").1.success = true :=
  ⟨by decide,
   settings_has_no_current_collection_field.2.2.1 ["kb1"] "kb1" (by decide),
   (settings_has_no_current_collection_field.2.2.2 ["kb1"] [] "kb1" (by decide)).1⟩

/-- C2 (code bug): the vector-store factory does not accept a collection-name
override — its sole parameter is the catalog store name — and the
VectorStoreManager constructor passes the keyword collection_name to it, so
every construction raises TypeError; moreover any handle the factory does
construct is bound to the collection name declared by the resolved catalog
entry, not to a caller-chosen one. -/
theorem vector_store_manager_init_raises_type_error :
    (∀ (cat : Catalog) (batch_size : Nat) (collection_name : Option String),
        vector_store_manager_init cat batch_size collection_name =
          .error (.typeError "got an unexpected keyword argument")) ∧
    (∀ (cat : Catalog) (store_name : Option String) (h : MilvusHandle),
        get_vector_store cat store_name = .ok h →
          ∃ entry : VectorStoreEntry,
            cat.vector_stores.lookup (store_name.getD cat.default_vector_store) =
              some entry ∧ h.collection_name = entry.collection_name) := by
  constructor
  · intro cat batch_size collection_name
    have hb : "collection_name" ∉ get_vector_store_params := by decide
    simp [vector_store_manager_init, bindKwargs, hb]
  · intro cat store_name h heq
    cases hl : cat.vector_stores.lookup (store_name.getD cat.default_vector_store) with
    | none => simp [get_vector_store, hl] at heq
    | some sc =>
      rw [get_vector_store, hl] at heq
      simp only [Except.ok.injEq] at heq
      exact ⟨sc, rfl, by rw [← heq]⟩

/-- C2 witness: a one-entry catalog: every manager construction raises
TypeError, and the factory handle for the default store carries the catalog
entry collection name. -/
theorem vector_store_manager_init_raises_type_error_witness :
    vector_store_manager_init
        { default_vector_store := "default",
          vector_stores := [("default",
            { collection_name := "knowledge_base", enable_dynamic_field := true,
              auto_id := true, drop_old := false })] } 10 (some "my_kb") =
      .error (.typeError "got an unexpected keyword argument") ∧
    ∃ entry : VectorStoreEntry,
      (Catalog.mk "default" [("default",
          { collection_name := "knowledge_base", enable_dynamic_field := true,
            auto_id := true, drop_old := false })]).vector_stores.lookup
          ((none : Option String).getD "default") = some entry ∧
      (MilvusHandle.mk "knowledge_base" true true false).collection_name =
        entry.collection_name :=
  ⟨vector_store_manager_init_raises_type_error.1 _ 10 (some "my_kb"),
   vector_store_manager_init_raises_type_error.2
     { default_vector_store := "default",
       vector_stores := [("default",
         { collection_name := "knowledge_base", enable_dynamic_field := true,
           auto_id := true, drop_old := false })] }
     none (MilvusHandle.mk "knowledge_base" true true false) rfl⟩

/-- C7: the batch upload endpoint records each upload in exactly one result
entry (failures — missing name, unsupported type, raised processing error —
included, without aborting the batch), reports total_files equal to the
number of uploads, successful plus failed equal to total, and a success rate
of successful/total*100, with 0 for an empty batch. -/
theorem upload_files_batch_aggregation :
    ∀ files : List UploadSim,
      (upload_files files).results = files.map process_upload ∧
      (upload_files files).total_files = files.length ∧
      (upload_files files).successful_files + (upload_files files).failed_files =
        (upload_files files).total_files ∧
      (upload_files files).success_rate =
        (if 0 < files.length
         then ((upload_files files).successful_files : ℚ) / (files.length : ℚ) * 100
         else 0) ∧
      ∀ u : UploadSim,
        (u.filename = "" ∨ u.supported = false ∨ ∃ m, u.outcome = .add_raises m) →
          (process_upload u).success = false := by
  intro files
  have hle : ((files.map process_upload).countP fun r => r.success) ≤
      (files.map process_upload).length := List.countP_le_length _
  refine ⟨rfl, by simp [upload_files], ?_, ?_, ?_⟩
  · simp only [upload_files]
    omega
  · simp [upload_files]
  · intro u hu
    rcases hu with h | h | ⟨m, h⟩
    · simp [process_upload, h]
    · by_cases hn : u.filename = "" <;> simp [process_upload, hn, h]
    · by_cases hn : u.filename = "" <;> by_cases hs : u.supported <;>
        simp [process_upload, hn, hs, h]

/-- C7 witness: a two-upload batch with one missing filename and one
successful file has total 2, and the missing-name upload yields a failure
entry. -/
theorem upload_files_batch_aggregation_witness :
    (upload_files [{ filename := "", supported := true, outcome := .add_ok true },
        { filename := "a.txt", supported := true, outcome := .add_ok true }]).total_files
      = 2 ∧
    (process_upload { filename := "", supported := true, outcome := .add_ok true }).success
      = false :=
  ⟨by
    have h := (upload_files_batch_aggregation
      [{ filename := "", supported := true, outcome := .add_ok true },
       { filename := "a.txt", supported := true, outcome := .add_ok true }]).2.1
    simpa using h,
   (upload_files_batch_aggregation []).2.2.2.2
     { filename := "", supported := true, outcome := .add_ok true } (Or.inl rfl)⟩
